import Mathlib

/-!
Shallow embedding of the LWO exporter in io_export_lwo.py (the darkblender
repository) and proofs about it.

Modelling conventions:
* Python byte strings become List Nat (each entry one byte value).
* struct.pack calls with a fixed-width unsigned integer format are modelled by
  u16be / u32be on in-range inputs; the checked struct_pack_H / struct_pack_L /
  struct_pack_h functions also model the struct.error raised on out-of-range
  input, as Except.error.
* Python floats become Rat (exact arithmetic on the same field values); the
  4-byte IEEE-754 big-endian encoding written by struct.pack with an f format
  is abstracted as a parameter packF32 : Rat -> List Nat, since none of the
  verified claims depend on IEEE bit patterns.  math.sqrt is likewise
  abstracted as sqrtQ.
* Fallible Python operations (list indexing, list.index, attribute access on
  objects that may be None, undefined attributes) are modelled with
  Except String, the error text naming the Python exception.
* bpy/bmesh scene data is modelled by the Mesh / ExportObject / HostEnv
  structures: an already-finalized read-only snapshot, exactly the data the
  exporter reads.  Blender guarantees that a polygon's loop indices are the
  contiguous range starting at its loop_start, which is how loop_indices is
  modelled.  Tag names and material names are encoded with Char.toNat per
  character (they are ASCII in every claim considered here, where UTF-8 agrees
  with the code points).
* The str/bytes distinction at the file-write boundary is kept where the
  source can confuse the two: generate_tags returns a PyData value that is
  either bytes or an unencoded Python str, py_write_data models the TypeError
  a binary-mode file write raises on a str, and lwo_written_bytes gives the
  bytes actually left in the output file when that happens.
-/

/-- Big-endian byte list of a 16-bit unsigned value (the bytes produced by
struct.pack of an in-range value with format H, big-endian). -/
def u16be (n : Nat) : List Nat :=
  [n / 256 % 256, n % 256]

/-- Big-endian byte list of a 32-bit unsigned value (the bytes produced by
struct.pack of an in-range value with format L, big-endian). -/
def u32be (n : Nat) : List Nat :=
  [n / 2 ^ 24 % 256, n / 2 ^ 16 % 256, n / 256 % 256, n % 256]

/-- struct.pack big-endian format H: raises struct.error outside [0, 0xFFFF].
The exporter only ever passes non-negative values. -/
def struct_pack_H (n : Nat) : Except String (List Nat) :=
  if n < 65536 then .ok (u16be n)
  else .error "struct.error: H format requires 0 <= number <= 65535"

/-- struct.pack big-endian format L: raises struct.error outside
[0, 0xFFFFFFFF]. -/
def struct_pack_L (n : Nat) : Except String (List Nat) :=
  if n < 4294967296 then .ok (u32be n)
  else .error "struct.error: L format requires 0 <= number <= 4294967295"

/-- struct.pack big-endian format h (signed 16-bit).  The exporter only passes
layer indices, which are non-negative, so the model takes a Nat and only the
upper bound can fail. -/
def struct_pack_h (n : Nat) : Except String (List Nat) :=
  if n < 32768 then .ok (u16be n)
  else .error "struct.error: h format requires -32768 <= number <= 32767"

/-- Code points of a string; equals its UTF-8 bytes for ASCII strings. -/
def asciiBytes (s : String) : List Nat :=
  s.data.map Char.toNat

/-- Source: generate_nstring (io_export_lwo.py lines 119-125).  Appends two
NULs when the length is even, one when it is odd. -/
def generate_nstring (string : String) : String :=
  if string.length % 2 == 0 then string ++ "\x00\x00"
  else string ++ "\x00"

/-- Bytes of a name as stored in chunk payloads. -/
def nstringBytes (s : String) : List Nat :=
  asciiBytes (generate_nstring s)

/-- Source: generate_vx (io_export_lwo.py lines 141-150).  Variable-width
vertex/polygon index encoding. -/
def generate_vx (index : Nat) : Except String (List Nat) :=
  if index < 0xFF00 then struct_pack_H index
  else struct_pack_L (index ||| 0xFF000000)

/-- The byte list generate_vx returns whenever it succeeds (its value on
indices below 2^32). -/
def vxBytes (index : Nat) : List Nat :=
  if index < 0xFF00 then u16be index else u32be (index ||| 0xFF000000)

/-- Python list indexing with a non-negative index: IndexError when out of
range. -/
def pyGet {α : Type} (l : List α) (i : Nat) : Except String α :=
  match l[i]? with
  | some a => .ok a
  | none => .error "IndexError: list index out of range"

/-- Python list indexing with a possibly negative index (negative indices
count from the end). -/
def pyGetInt {α : Type} (l : List α) (i : Int) : Except String α :=
  if 0 ≤ i then pyGet l i.toNat
  else if 0 ≤ i + l.length then pyGet l (i + l.length).toNat
  else .error "IndexError: list index out of range"

/-- Python list.index: position of the first occurrence, ValueError when the
element is absent. -/
def pyIndex {α : Type} [DecidableEq α] : List α → α → Except String Nat
  | [], _ => .error "ValueError: x not in list"
  | a :: l, x => if a = x then .ok 0 else (pyIndex l x).map (· + 1)

/-- Effectful map over a list, stopping at the first error: the shape of every
write loop in the exporter. -/
def mapME {α β : Type} (f : α → Except String β) : List α → Except String (List β)
  | [] => .ok []
  | a :: l => do
    let b ← f a
    let bs ← mapME f l
    .ok (b :: bs)

/-- Python range(n-1, -1, -1): the indices n-1, n-2, ..., 0. -/
def down_range : Nat → List Nat
  | 0 => []
  | n + 1 => n :: down_range n

-- ---------------------------------------------------------------------------
-- Scene snapshot data model (the read-only bpy data the exporter consumes)
-- ---------------------------------------------------------------------------

/-- One mesh polygon: its vertex indices in authored winding order, its
material slot index, and the start of its contiguous loop-index range. -/
structure Polygon where
  vertices : List Nat
  material_index : Nat
  loop_start : Nat

/-- A named UV layer; data is indexed by global loop index. -/
structure UVLayer where
  name : String
  data : List (ℚ × ℚ)

/-- A named vertex-color layer; data is indexed by global loop index. -/
structure VColorLayer where
  name : String
  data : List (ℚ × ℚ × ℚ × ℚ)

/-- A mesh snapshot: ordered vertices, edge list, polygons, material slots
(slots may be empty, which bpy reports as None), UV and vertex-color layers,
and the auto-smooth settings read by the surface generator. -/
structure Mesh where
  vertices : List (ℚ × ℚ × ℚ)
  edges : List (Nat × Nat)
  polygons : List Polygon
  materials : List (Option String)
  uv_layers : List UVLayer
  vertex_colors : List VColorLayer
  use_auto_smooth : Bool
  auto_smooth_angle : ℚ

/-- The material properties generate_mesh_surface reads inside its try block.
The fields refl/rblr/rind/tran/tblr/trnl computed by the source are never
written to the output, so their inputs are not modelled. -/
structure MaterialRecord where
  diffuse_color : ℚ × ℚ × ℚ
  diffuse_intensity : ℚ
  emit : ℚ
  specular_intensity : ℚ
  specular_hardness : ℚ
  vcmenu : String

/-- Host lookups the exporter performs: bpy.data.objects.get(name).location
and bpy.data.materials.get(name) together with the success of every property
access in the try block of generate_mesh_surface (a None result models both a
missing material and a property access that raises, which the source treats
identically through its except branch). -/
structure HostEnv where
  objLocation : String → Option (ℚ × ℚ × ℚ)
  materialsDB : String → Option MaterialRecord

/-- One object selected for export: its (original) name and its mesh. -/
structure ExportObject where
  name : String
  mesh : Mesh

/-- Abstracted float operations: the 4-byte big-endian IEEE-754 packing of
struct.pack format f, and math.sqrt. -/
structure FloatModel where
  packF32 : ℚ → List Nat
  sqrtQ : ℚ → ℚ

/-- The loop_indices of a polygon: the contiguous range starting at
loop_start, one loop per vertex. -/
def loopIndices (p : Polygon) : List Nat :=
  List.range' p.loop_start p.vertices.length

-- ---------------------------------------------------------------------------
-- Chunk writer and header
-- ---------------------------------------------------------------------------

/-- Source: write_chunk (lines 127-131): 4-byte ASCII tag, big-endian u32
payload length, payload.  The pack of the length is in range whenever the
payload is shorter than 2^32 bytes, which the header-law theorem assumes. -/
def write_chunk (name : String) (data : List Nat) : List Nat :=
  asciiBytes name ++ u32be data.length ++ data

/-- Source: the form_size computation of write_header (line 136). -/
def form_size (chunks : List (List Nat)) : Nat :=
  (chunks.map List.length).sum + chunks.length * 8 + "FORM".length

/-- Source: write_header (lines 133-139). -/
def write_header (chunks : List (List Nat)) : List Nat :=
  asciiBytes "FORM" ++ u32be (form_size chunks) ++ asciiBytes "LWO2"

-- ---------------------------------------------------------------------------
-- Attribute block generators
-- ---------------------------------------------------------------------------

/-- Source: DEFAULT_NAME (line 261). -/
def DEFAULT_NAME : String := "Blender Default"

/-- One corner of the vertex-color loop in generate_vertex_colors
(lines 167-173): fetch the RGBA color at the corner's loop index, then write
variable-width vertex and face indices followed by four packed floats. -/
def vcolor_corner (fm : FloatModel) (layer : VColorLayer) (face_idx v loop : Nat) :
    Except String (List Nat) := do
  let c ← pyGet layer.data loop
  let bv ← generate_vx v
  let bf ← generate_vx face_idx
  .ok (bv ++ bf ++ fm.packF32 c.1 ++ fm.packF32 c.2.1 ++ fm.packF32 c.2.2.1
      ++ fm.packF32 c.2.2.2)

/-- The polygon loop of generate_vertex_colors (lines 167-173), iterating
zip(face.vertices, face.loop_indices) for each face in order. -/
def vcolor_polys (fm : FloatModel) (layer : VColorLayer) :
    Nat → List Polygon → Except String (List (List Nat))
  | _, [] => .ok []
  | i, p :: ps => do
    let here ← mapME (fun vl => vcolor_corner fm layer i vl.1 vl.2)
        (p.vertices.zip (loopIndices p))
    let rest ← vcolor_polys fm layer (i + 1) ps
    .ok (here ++ rest)

/-- The layer loop of generate_vertex_colors (lines 155-177): a block is kept
only when its found flag was set, i.e. when at least one corner was written. -/
def vcolor_layers (fm : FloatModel) (polys : List Polygon) :
    List VColorLayer → Except String (List (List Nat))
  | [] => .ok []
  | l :: ls => do
    let entries ← vcolor_polys fm l 0 polys
    let rest ← vcolor_layers fm polys ls
    .ok (if entries.isEmpty then rest
        else (asciiBytes "RGBA" ++ u16be 4 ++ nstringBytes l.name
            ++ entries.flatten) :: rest)

/-- Source: generate_vertex_colors (lines 152-177). -/
def generate_vertex_colors (fm : FloatModel) (mesh : Mesh) :
    Except String (List (List Nat)) :=
  vcolor_layers fm mesh.polygons mesh.vertex_colors

/-- The byte layout shared by generate_mesh_surface (lines 179-259): name,
empty COLR placeholder, COLR/DIFF/LUMI/SPEC/GLOS sub-blocks each with a
16-bit length and a reserved u16, the optional VCOL sub-block, and SMAN. -/
def surf_bytes (fm : FloatModel) (name : String) (R G B diff lumi spec gloss sman : ℚ)
    (vcol : Option String) : List Nat :=
  nstringBytes name
    ++ asciiBytes "COLR" ++ u16be 0
    ++ asciiBytes "COLR" ++ u16be 14 ++ fm.packF32 R ++ fm.packF32 G ++ fm.packF32 B
      ++ u16be 0
    ++ asciiBytes "DIFF" ++ u16be 6 ++ fm.packF32 diff ++ u16be 0
    ++ asciiBytes "LUMI" ++ u16be 6 ++ fm.packF32 lumi ++ u16be 0
    ++ asciiBytes "SPEC" ++ u16be 6 ++ fm.packF32 spec ++ u16be 0
    ++ asciiBytes "GLOS" ++ u16be 6 ++ fm.packF32 gloss ++ u16be 0
    ++ (match vcol with
        | some vcname =>
          let tmp := fm.packF32 1 ++ u16be 0 ++ asciiBytes "RGBA" ++ nstringBytes vcname
          asciiBytes "VCOL" ++ u16be tmp.length ++ tmp
        | none => [])
    ++ asciiBytes "SMAN" ++ u16be 4 ++ fm.packF32 sman

/-- Source: generate_mesh_surface (lines 179-259).  The try block succeeds
exactly when the material lookup and every property access succeed (modelled
as materialsDB returning some record); otherwise the except branch substitutes
the fixed defaults, leaves material unset, and writes sman = 0. -/
def generate_mesh_surface (fm : FloatModel) (env : HostEnv) (mesh : Mesh)
    (material_name : String) : List Nat :=
  match env.materialsDB material_name with
  | some material =>
    let gloss := fm.sqrtQ ((material.specular_hardness - 4) / 400)
    let sman := if mesh.use_auto_smooth then mesh.auto_smooth_angle else 0
    let vcol := if material.vcmenu = "<none>" then none else some material.vcmenu
    surf_bytes fm material_name material.diffuse_color.1 material.diffuse_color.2.1
      material.diffuse_color.2.2 material.diffuse_intensity material.emit
      material.specular_intensity gloss sman vcol
  | none =>
    surf_bytes fm material_name 1 1 1 1 0 (0.2 : ℚ) 0 0 none

/-- Source: generate_default_surf (lines 263-292); its payload, as it would be
produced if it were called with the self argument its signature demands.
round(50 / (255/2.0), 1) evaluates to 0.4 exactly. -/
def generate_default_surf (fm : FloatModel) : List Nat :=
  nstringBytes DEFAULT_NAME
    ++ asciiBytes "COLR" ++ u16be 14 ++ fm.packF32 (0.9 : ℚ) ++ fm.packF32 (0.9 : ℚ)
      ++ fm.packF32 (0.9 : ℚ) ++ u16be 0
    ++ asciiBytes "DIFF" ++ u16be 6 ++ fm.packF32 (0.8 : ℚ) ++ u16be 0
    ++ asciiBytes "LUMI" ++ u16be 6 ++ fm.packF32 0 ++ u16be 0
    ++ asciiBytes "SPEC" ++ u16be 6 ++ fm.packF32 (0.4 : ℚ) ++ u16be 0
    ++ asciiBytes "GLOS" ++ u16be 6 ++ fm.packF32 (0.4 : ℚ) ++ u16be 0

/-- Source: LwoExport.generate_surface (lines 607-611).  When the name equals
DEFAULT_NAME the source calls the module-level generate_default_surf() with no
argument, but that function requires one positional parameter (self), so the
call raises TypeError. -/
def generate_surface (fm : FloatModel) (env : HostEnv) (mesh : Mesh) (name : String) :
    Except String (List Nat) :=
  if name = DEFAULT_NAME then
    .error "TypeError: generate_default_surf missing 1 required positional argument"
  else
    .ok (generate_mesh_surface fm env mesh name)

/-- The mesh loop of get_used_material_names (lines 575-590), carrying the
position of the mesh in self.meshes.  The attributes self.LWO_VCOLOR_MATERIAL
and self.LWO_DEFAULT_MATERIAL read in the two fallback branches are never
assigned anywhere in the module (only self.VCOL_NAME is ever set, and nothing
reads it), so both branches raise AttributeError. -/
def used_material_pairs : Nat → List Mesh → Except String (List (Nat × String))
  | _, [] => .ok []
  | i, mesh :: rest => do
    let here ←
      if mesh.materials.isEmpty then
        if mesh.vertex_colors.isEmpty then
          Except.error "AttributeError: LwoExport object has no attribute LWO_DEFAULT_MATERIAL"
        else
          Except.error "AttributeError: LwoExport object has no attribute LWO_VCOLOR_MATERIAL"
      else
        Except.ok ((mesh.materials.filterMap id).map (fun n => (i, n)))
    let more ← used_material_pairs (i + 1) rest
    .ok (here ++ more)

/-- Source: get_used_material_names (lines 575-590), returning the matmeshes
and matnames lists as a single list of (mesh position, material name) pairs
built in the same order. -/
def get_used_material_names (meshes : List Mesh) : Except String (List (Nat × String)) :=
  used_material_pairs 0 meshes

/-- A value crossing the exporter's write boundary that is either a bytes
object or an unencoded Python str: generate_tags can return either. -/
inductive PyData where
  | bytes (data : List Nat)
  | str (s : String)

/-- Python len of such a value: the byte count for bytes, the character count
for a str. -/
def py_len : PyData → Nat
  | .bytes d => d.length
  | .str s => s.length

/-- Source: generate_tags (lines 595-602).  The nonempty branch encodes every
name with bytes(..., UTF-8) at line 599; the empty branch at line 602 returns
the str produced by generate_nstring without that wrapper, i.e. an unencoded
Python str.  The empty branch is reachable: a mesh whose material slot list
is non-empty but holds only empty (None) slots contributes no tag-table
entries yet passes get_used_material_names. -/
def generate_tags (material_names : List String) : PyData :=
  if material_names.isEmpty then .str (generate_nstring "")
  else .bytes ((material_names.map nstringBytes).flatten)

/-- dest_file.write(data) inside write_chunk (line 131): writing a str to a
file opened in binary mode raises TypeError; bytes pass through unchanged. -/
def py_write_data : PyData → Except String (List Nat)
  | .bytes d => .ok d
  | .str _ => .error "TypeError: a bytes-like object is required, not str"

/-- Python str.replace with single-character arguments. -/
def replace_char (pat repl : Char) (s : String) : String :=
  ⟨s.data.map (fun c => if c = pat then repl else c)⟩

/-- The name normalization of generate_layr (line 622):
name.replace(" ", "_").replace(".", "_"). -/
def layr_name (s : String) : String :=
  replace_char '.' '_' (replace_char ' ' '_' s)

/-- Source: generate_layr (lines 616-623).  bpy.data.objects.get(name) yields
None when the name is absent, making the .location access raise. -/
def generate_layr (fm : FloatModel) (env : HostEnv) (name : String) (idx : Nat) :
    Except String (List Nat) := do
  let loc ← (match env.objLocation name with
    | some loc => Except.ok loc
    | none => Except.error "AttributeError: NoneType object has no attribute location")
  let bidx ← struct_pack_h idx
  .ok (bidx ++ u16be 0 ++ fm.packF32 loc.1 ++ fm.packF32 loc.2.2 ++ fm.packF32 loc.2.1
      ++ nstringBytes (layr_name name))

/-- Source: generate_pnts (lines 628-636): per vertex, the scaled coordinates
packed in axis-swapped order (x, z, y). -/
def generate_pnts (fm : FloatModel) (scale : ℚ) (mesh : Mesh) : List Nat :=
  (mesh.vertices.map (fun v =>
    fm.packF32 (v.1 * scale) ++ fm.packF32 (v.2.2 * scale)
      ++ fm.packF32 (v.2.1 * scale))).flatten

/-- Python min over a list of rationals: ValueError on an empty list. -/
def py_min : List ℚ → Except String ℚ
  | [] => .error "ValueError: min arg is an empty sequence"
  | x :: xs => .ok (xs.foldl min x)

/-- Python max over a list of rationals: ValueError on an empty list. -/
def py_max : List ℚ → Except String ℚ
  | [] => .error "ValueError: max arg is an empty sequence"
  | x :: xs => .ok (xs.foldl max x)

/-- Source: generate_bbox (lines 641-653).  When the mesh has vertices the
three coordinate lists are the scaled coordinates; otherwise each is the
single-element list [0.0], and the same six min/max packs run either way. -/
def generate_bbox (fm : FloatModel) (scale : ℚ) (mesh : Mesh) :
    Except String (List Nat) := do
  let xx := if mesh.vertices.isEmpty then [0] else mesh.vertices.map (fun v => v.1 * scale)
  let yy := if mesh.vertices.isEmpty then [0] else mesh.vertices.map (fun v => v.2.1 * scale)
  let zz := if mesh.vertices.isEmpty then [0] else mesh.vertices.map (fun v => v.2.2 * scale)
  let mnx ← py_min xx
  let mnz ← py_min zz
  let mny ← py_min yy
  let mxx ← py_max xx
  let mxz ← py_max zz
  let mxy ← py_max yy
  .ok (fm.packF32 mnx ++ fm.packF32 mnz ++ fm.packF32 mny ++ fm.packF32 mxx
      ++ fm.packF32 mxz ++ fm.packF32 mxy)

/-- One corner of the UV loop of generate_vmad_uv (lines 670-681): build the
doubled loop-index list, locate this corner's loop in it, fetch the previous
and next loop indices with Python indexing (pos - 1 may be -1, wrapping to the
end), compare the three UVs with the source's short-circuit order, and emit
the corner unless both neighbors carry the same UV. -/
def vmad_corner (fm : FloatModel) (layer : UVLayer) (lix : List Nat)
    (face_idx v loop : Nat) : Except String (Option (List Nat)) := do
  let searchl := lix ++ lix
  let pos ← pyIndex searchl loop
  let prevl ← pyGetInt searchl ((pos : Int) - 1)
  let nextl ← pyGetInt searchl ((pos : Int) + 1)
  let youv ← pyGet layer.data loop
  let prevuv ← pyGet layer.data prevl
  let emit : Except String (Option (List Nat)) := do
    let bv ← generate_vx v
    let bf ← generate_vx face_idx
    .ok (some (bv ++ bf ++ fm.packF32 youv.1 ++ fm.packF32 youv.2))
  if prevuv = youv then do
    let nextuv ← pyGet layer.data nextl
    if youv = nextuv then .ok none else emit
  else emit

/-- The polygon loop of generate_vmad_uv (lines 669-682), iterating
zip(p.vertices, p.loop_indices) per polygon and keeping the emitted corners. -/
def vmad_uv_polys (fm : FloatModel) (layer : UVLayer) :
    Nat → List Polygon → Except String (List (List Nat))
  | _, [] => .ok []
  | i, p :: ps => do
    let opts ← mapME (fun vl => vmad_corner fm layer (loopIndices p) i vl.1 vl.2)
        (p.vertices.zip (loopIndices p))
    let rest ← vmad_uv_polys fm layer (i + 1) ps
    .ok (opts.filterMap id ++ rest)

/-- The layer loop of generate_vmad_uv (lines 660-686): a layer's block is
kept only when its found flag was set, i.e. at least one corner was emitted
for that layer. -/
def vmad_uv_layers (fm : FloatModel) (polys : List Polygon) :
    List UVLayer → Except String (List (List Nat))
  | [] => .ok []
  | l :: ls => do
    let entries ← vmad_uv_polys fm l 0 polys
    let rest ← vmad_uv_layers fm polys ls
    .ok (if entries.isEmpty then rest
        else (asciiBytes "TXUV" ++ u16be 2 ++ nstringBytes l.name
            ++ entries.flatten) :: rest)

/-- Source: generate_vmad_uv (lines 658-686). -/
def generate_vmad_uv (fm : FloatModel) (mesh : Mesh) :
    Except String (List (List Nat)) :=
  vmad_uv_layers fm mesh.polygons mesh.uv_layers

/-- One polygon of generate_pols (lines 697-702): the u16 vertex count, then
the vertex indices written by the loop for j in range(numfaceverts-1, -1, -1),
each variable-width encoded. -/
def pols_poly (p : Polygon) : Except String (List Nat) := do
  let cnt ← struct_pack_H p.vertices.length
  let idxs ← mapME (fun j => do
      let v ← pyGet p.vertices j
      generate_vx v) (down_range p.vertices.length)
  .ok (cnt ++ idxs.flatten)

/-- Whether polygon p contains the undirected edge (a, b): some cyclically
consecutive pair of its vertices is (a, b) or (b, a). -/
def poly_has_edge (p : Polygon) (a b : Nat) : Bool :=
  (p.vertices.zip (p.vertices.rotate 1)).any
    (fun q => (q.1 == a && q.2 == b) || (q.1 == b && q.2 == a))

/-- Models the bmesh adjacency query len(e.link_faces) used at line 706: the
number of mesh polygons containing the edge. -/
def link_faces_count (polys : List Polygon) (e : Nat × Nat) : Nat :=
  polys.countP (fun p => poly_has_edge p e.1 e.2)

/-- The edge loop of generate_pols (lines 703-710): for every edge linked to
zero faces, a synthetic 2-vertex entry. -/
def pols_loose_edges (polys : List Polygon) :
    List (Nat × Nat) → Except String (List Nat)
  | [] => .ok []
  | e :: es => do
    let here ←
      if link_faces_count polys e == 0 then do
        let b1 ← generate_vx e.1
        let b2 ← generate_vx e.2
        Except.ok (u16be 2 ++ b1 ++ b2)
      else Except.ok []
    let rest ← pols_loose_edges polys es
    .ok (here ++ rest)

/-- Source: generate_pols (lines 691-712).  The bm.to_mesh(mesh) write-back of
the unmodified bmesh is a no-op on the snapshot. -/
def generate_pols (mesh : Mesh) (subd : Bool) : Except String (List Nat) := do
  let polys ← mapME pols_poly mesh.polygons
  let loose ← pols_loose_edges mesh.polygons mesh.edges
  .ok ((if subd then asciiBytes "SUBD" else asciiBytes "FACE") ++ polys.flatten ++ loose)

/-- The polygon loop of generate_ptag (lines 720-730), carrying poly.index.
With materials present it reads the slot at poly.material_index (IndexError
when out of range, AttributeError when the slot is empty/None) and resolves
the name with material_names.index. -/
def ptag_entries (materials : List (Option String)) (names : List String) :
    Nat → List Polygon → Except String (List Nat)
  | _, [] => .ok []
  | i, poly :: ps => do
    let here ←
      if materials.isEmpty then do
        let bi ← generate_vx i
        Except.ok (bi ++ u16be 0)
      else do
        let slot ← pyGet materials poly.material_index
        let matname ← (match slot with
          | some s => Except.ok s
          | none => Except.error "AttributeError: NoneType object has no attribute name")
        let surfindex ← pyIndex names matname
        let bi ← generate_vx i
        let bs ← struct_pack_H surfindex
        Except.ok (bi ++ bs)
    let rest ← ptag_entries materials names (i + 1) ps
    .ok (here ++ rest)

/-- Source: generate_ptag (lines 717-731). -/
def generate_ptag (mesh : Mesh) (material_names : List String) :
    Except String (List Nat) := do
  let entries ← ptag_entries mesh.materials material_names 0 mesh.polygons
  .ok (asciiBytes "SURF" ++ entries)

-- ---------------------------------------------------------------------------
-- Scene-to-model mapper and file assembler (LwoExport.write, lines 484-556)
-- ---------------------------------------------------------------------------

/-- Lines 514-515 and 529-532: the per-face UV blocks are generated and
written only when the mesh has UV layers. -/
def vmad_uvs_opt (fm : FloatModel) (mesh : Mesh) : Except String (List (List Nat)) :=
  if mesh.uv_layers.isEmpty then .ok [] else generate_vmad_uv fm mesh

/-- Lines 521-525: the vertex-color blocks are generated and written only when
the mesh has vertex-color layers. -/
def vcs_opt (fm : FloatModel) (mesh : Mesh) : Except String (List (List Nat)) :=
  if mesh.vertex_colors.isEmpty then .ok [] else generate_vertex_colors fm mesh

/-- The per-mesh body of the chunk-generation loop (lines 501-534): the chunks
written for one layer, as (tag, payload) pairs in write order. -/
def mesh_chunk_group (fm : FloatModel) (env : HostEnv) (material_names : List String)
    (subd : Bool) (scale : ℚ) (objName : String) (idx : Nat) (mesh : Mesh) :
    Except String (List (String × List Nat)) := do
  let layr ← generate_layr fm env objName idx
  let pnts := generate_pnts fm scale mesh
  let bbox ← generate_bbox fm scale mesh
  let pols ← generate_pols mesh subd
  let ptag ← generate_ptag mesh material_names
  let vmad_uvs ← vmad_uvs_opt fm mesh
  let vcs ← vcs_opt fm mesh
  .ok ([("LAYR", layr), ("PNTS", pnts), ("BBOX", bbox)]
      ++ vcs.map (fun d => ("VMAD", d))
      ++ [("POLS", pols), ("PTAG", ptag)]
      ++ vmad_uvs.map (fun d => ("VMAD", d)))

/-- The surface accumulation for one mesh (lines 505-507): one surface per
tag-table entry whose mesh is this mesh, in table order. -/
def surfs_for_mesh (fm : FloatModel) (env : HostEnv) (pairs : List (Nat × String))
    (idx : Nat) (mesh : Mesh) : Except String (List (List Nat)) :=
  mapME (fun pr => generate_surface fm env mesh pr.2)
    (pairs.filter (fun pr => pr.1 == idx))

/-- The mesh loop of LwoExport.write (lines 501-534), accumulating the
per-layer chunk pairs and the surface payloads in mesh order. -/
def export_loop (fm : FloatModel) (env : HostEnv) (pairs : List (Nat × String))
    (subd : Bool) (scale : ℚ) :
    Nat → List ExportObject → Except String (List (String × List Nat) × List (List Nat))
  | _, [] => .ok ([], [])
  | idx, o :: os => do
    let s ← surfs_for_mesh fm env pairs idx o.mesh
    let g ← mesh_chunk_group fm env (pairs.map Prod.snd) subd scale o.name idx o.mesh
    let rest ← export_loop fm env pairs subd scale (idx + 1) os
    .ok (g ++ rest.1, s ++ rest.2)

/-- One per-file export pass of LwoExport.write (lines 488-556): the ordered
(tag, payload) chunk stream written in full to one output file.  self.clips is
initialized to the empty list at line 489 and no statement in the module ever
appends to it, so the CLIP loop is modelled over that empty list.  The
py_write_data step is the TAGS write of line 551: when generate_tags returned
an unencoded str, dest_file.write(data) raises TypeError there, after every
chunk was generated; the header and the 8-byte TAGS chunk header are already
on disk at that point (lwo_written_bytes models the truncated file). -/
def lwo_write_pass (fm : FloatModel) (env : HostEnv) (objs : List ExportObject)
    (subd : Bool) (scale : ℚ) : Except String (List (String × List Nat)) := do
  let pairs ← get_used_material_names (objs.map ExportObject.mesh)
  let clips : List (List Nat) := []
  let tags := generate_tags (pairs.map Prod.snd)
  let body ← export_loop fm env pairs subd scale 0 objs
  let tagsBytes ← py_write_data tags
  .ok (("TAGS", tagsBytes) :: body.1
      ++ clips.map (fun c => ("CLIP", c))
      ++ body.2.map (fun s => ("SURF", s)))

/-- The bytes written to the output file (lines 549-556): header computed from
the accumulated payloads, then every chunk through write_chunk in order. -/
def lwo_file_bytes (written : List (String × List Nat)) : List Nat :=
  write_header (written.map Prod.snd)
    ++ (written.map (fun p => write_chunk p.1 p.2)).flatten

/-- A whole single-file export: the pass, then the file serialization. -/
def lwo_export_file (fm : FloatModel) (env : HostEnv) (objs : List ExportObject)
    (subd : Bool) (scale : ℚ) : Except String (List Nat) :=
  (lwo_write_pass fm env objs subd scale).map lwo_file_bytes

/-- The form_size computation of write_header (line 136) over the raw chunk
list of line 549, whose first element — the generate_tags result — may be the
unencoded str; Python len of a str is its character count. -/
def form_size_py (chunks : List PyData) : Nat :=
  (chunks.map py_len).sum + chunks.length * 8 + "FORM".length

/-- The bytes LwoExport.write actually leaves in the output file (lines
549-556), with the exception message if one is raised.  The header always goes
out first; then write_chunk for TAGS writes the 4-byte tag and the 4-byte
length field before dest_file.write(data) raises TypeError on a str payload,
so an empty tag table abandons a 20-byte truncated file; with bytes tags every
chunk is written in order. -/
def lwo_written_bytes (tags : PyData) (rest : List (String × List Nat)) :
    List Nat × Option String :=
  let header := asciiBytes "FORM"
    ++ u32be (form_size_py (tags :: rest.map (fun p => PyData.bytes p.2)))
    ++ asciiBytes "LWO2"
  match tags with
  | .str _ => (header ++ asciiBytes "TAGS" ++ u32be (py_len tags),
      some "TypeError: a bytes-like object is required, not str")
  | .bytes d => (header ++ write_chunk "TAGS" d
      ++ (rest.map (fun p => write_chunk p.1 p.2)).flatten, none)

-- ---------------------------------------------------------------------------
-- Batch-mode output filename (lines 542-546)
-- ---------------------------------------------------------------------------

/-- Python str.lower. -/
def py_lower (s : String) : String :=
  ⟨s.data.map Char.toLower⟩

/-- Python str.endswith. -/
def py_ends_with (s suffix : String) : Bool :=
  suffix.data.isSuffixOf s.data

/-- Source: the batch-mode filename computation (lines 542-546): the directory
of the dialog path, os.sep (slash), the original object name with periods
replaced by underscores, then .lwo appended unless the lowercased name already
ends with it. -/
def batch_filename (dirname objname : String) : String :=
  let f := dirname ++ "/" ++ replace_char '.' '_' objname
  if py_ends_with (py_lower f) ".lwo" then f else f ++ ".lwo"

-- ---------------------------------------------------------------------------
-- Spec-side description of the UV discontinuity block (for claim C5)
-- ---------------------------------------------------------------------------

/-- The UV stored at a loop index (out-of-range defaults are never reached
under the validity hypotheses of the theorems that use this). -/
def uv_at (layer : UVLayer) (j : Nat) : ℚ × ℚ :=
  layer.data.getD j (0, 0)

/-- The spec's corner-suppression condition, stated with plain cyclic
neighbor arithmetic: corner k of polygon p is suppressed iff its UV equals
both the previous and the next corner's UV in the polygon's corner cycle. -/
def corner_smooth (layer : UVLayer) (p : Polygon) (k : Nat) : Bool :=
  let n := p.vertices.length
  (uv_at layer (p.loop_start + (k + n - 1) % n) == uv_at layer (p.loop_start + k))
    && (uv_at layer (p.loop_start + k) == uv_at layer (p.loop_start + (k + 1) % n))

/-- Spec-side description of one UV layer's emitted entries, following the
spec's words for claim C5: per polygon in order, per corner k, the corner is
emitted unless corner_smooth holds, as encoded vertex index, encoded polygon
index, and the packed UV pair. -/
def vmad_uv_spec_layer (fm : FloatModel) (polys : List Polygon) (layer : UVLayer) :
    List (List Nat) :=
  ((List.enumFrom 0 polys).map (fun ip =>
    ((List.range ip.2.vertices.length).filter (fun k => !corner_smooth layer ip.2 k)).map
      (fun k => vxBytes (ip.2.vertices.getD k 0) ++ vxBytes ip.1
        ++ fm.packF32 (uv_at layer (ip.2.loop_start + k)).1
        ++ fm.packF32 (uv_at layer (ip.2.loop_start + k)).2))).flatten

/-- Spec-side description of the whole per-mesh UV block list for claim C5:
one block per UV layer with at least one emitted corner, consisting of the
TXUV header, dimension 2, the padded layer name, and the emitted entries. -/
def vmad_uv_spec (fm : FloatModel) (mesh : Mesh) : List (List Nat) :=
  mesh.uv_layers.filterMap (fun l =>
    if (vmad_uv_spec_layer fm mesh.polygons l).isEmpty then none
    else some (asciiBytes "TXUV" ++ u16be 2 ++ nstringBytes l.name
      ++ (vmad_uv_spec_layer fm mesh.polygons l).flatten))

-- ---------------------------------------------------------------------------
-- Generic list helpers used in theorem statements
-- ---------------------------------------------------------------------------

/-- Minimum of a list of rationals, taking the first element as the start
value and 0 for the empty list. -/
def listMin0 (l : List ℚ) : ℚ := l.foldl min (l.headD 0)

/-- Maximum of a list of rationals, taking the first element as the start
value and 0 for the empty list. -/
def listMax0 (l : List ℚ) : ℚ := l.foldl max (l.headD 0)

-- ---------------------------------------------------------------------------
-- Concrete fixtures used by witnesses and counterexamples
-- ---------------------------------------------------------------------------

/-- A one-triangle mesh with no materials and no vertex-color layers: the
failing input of claim C1. -/
def plainMesh : Mesh :=
  { vertices := [(0, 0, 0), (1, 0, 0), (0, 1, 0)]
    edges := [(0, 1), (1, 2), (2, 0)]
    polygons := [⟨[0, 1, 2], 0, 0⟩]
    materials := []
    uv_layers := []
    vertex_colors := []
    use_auto_smooth := false
    auto_smooth_angle := 0 }

/-- The same triangle with a single material slot. -/
def triMesh : Mesh := { plainMesh with materials := [some "Mat"] }

/-- A mesh with zero vertices and zero polygons (and one material slot so the
tag-table construction succeeds). -/
def emptyMesh : Mesh :=
  { plainMesh with vertices := [], edges := [], polygons := [], materials := [some "Mat"] }

/-- The triangle with one UV layer whose three corners carry the same UV. -/
def uvTriEq : Mesh :=
  { triMesh with uv_layers := [⟨"UVMap", [(1, 1), (1, 1), (1, 1)]⟩] }

/-- The triangle with one UV layer in which one corner's UV was perturbed. -/
def uvTriSeam : Mesh :=
  { triMesh with uv_layers := [⟨"UVMap", [(0, 0), (1, 1), (1, 1)]⟩] }

/-- A float model for witnesses: the claims never constrain IEEE bit patterns,
so any 4-byte packer instantiates them. -/
def witFM : FloatModel := ⟨fun _ => [0, 0, 0, 0], fun _ => 0⟩

/-- A host environment for witnesses. -/
def witEnv : HostEnv := ⟨fun _ => some (0, 0, 0), fun _ => none⟩

/-- A mesh whose material slot list is non-empty but holds only empty (None)
slots, with no polygons and no vertices: get_used_material_names takes the
materials branch yet appends nothing, so the export reaches the empty branch
of generate_tags.  Failing input of claim C2. -/
def allNoneMesh : Mesh :=
  { vertices := [], edges := [], polygons := [], materials := [none],
    uv_layers := [], vertex_colors := [], use_auto_smooth := false,
    auto_smooth_angle := 0 }

/-- The per-mesh chunk pairs generated for allNoneMesh before the TAGS write
raises (its surface list is empty, and the clip list always is). -/
def allNoneRest : List (String × List Nat) :=
  ((export_loop witFM witEnv [] false 1 0 [⟨"Obj", allNoneMesh⟩]).toOption.getD
    ([], [])).1

-- ---------------------------------------------------------------------------
-- Helper lemmas
-- ---------------------------------------------------------------------------

set_option maxRecDepth 8192

theorem ok_bind {α β : Type} (a : α) (f : α → Except String β) :
    (Except.ok a >>= f : Except String β) = f a := rfl

theorem error_bind {α β : Type} (e : String) (f : α → Except String β) :
    (Except.error e >>= f : Except String β) = .error e := rfl

theorem bind_eq_ok {α β : Type} {e : Except String α} {f : α → Except String β} {b : β}
    (h : (e >>= f) = .ok b) : ∃ a, e = .ok a ∧ f a = .ok b := by
  cases e with
  | ok a => exact ⟨a, rfl, h⟩
  | error msg => exact absurd h (by simp [error_bind])

theorem mapME_ok {α β : Type} {f : α → Except String β} {g : α → β} :
    ∀ {l : List α}, (∀ a ∈ l, f a = .ok (g a)) → mapME f l = .ok (l.map g) := by
  intro l
  induction l with
  | nil => intro _; rfl
  | cons a l ih =>
    intro h
    have ha : f a = .ok (g a) := h a (by simp)
    have hl := ih (fun x hx => h x (by simp [hx]))
    simp [mapME, ha, hl, ok_bind]

theorem mapME_mem {α β : Type} {f : α → Except String β} :
    ∀ {l : List α} {bs : List β}, mapME f l = .ok bs →
      ∀ b ∈ bs, ∃ a ∈ l, f a = .ok b := by
  intro l
  induction l with
  | nil =>
    intro bs h b hb
    cases h
    cases hb
  | cons a l ih =>
    intro bs h b hb
    obtain ⟨b0, hb0, h2⟩ := bind_eq_ok h
    obtain ⟨bs0, hbs0, h3⟩ := bind_eq_ok h2
    cases h3
    rcases List.mem_cons.mp hb with hb | hb
    · exact ⟨a, by simp, hb ▸ hb0⟩
    · obtain ⟨a0, ha0, hfa0⟩ := ih hbs0 b hb
      exact ⟨a0, by simp [ha0], hfa0⟩

theorem lor_ff000000 (x : Nat) (h : x < 2 ^ 32) :
    x ||| 0xFF000000 = 0xFF000000 + x % 2 ^ 24 := by
  have hd : x = 2 ^ 24 * (x / 2 ^ 24) + x % 2 ^ 24 := (Nat.div_add_mod x (2 ^ 24)).symm
  have hq : x / 2 ^ 24 < 256 := by omega
  have hm : x % 2 ^ 24 < 2 ^ 24 := Nat.mod_lt _ (by norm_num)
  have key : ∀ q < 256, 2 ^ 24 * q ||| 2 ^ 24 * 255 = 2 ^ 24 * 255 := by decide
  have hc : (0xFF000000 : Nat) = 2 ^ 24 * 255 := by norm_num
  calc x ||| 0xFF000000
      = (2 ^ 24 * (x / 2 ^ 24) ||| x % 2 ^ 24) ||| 2 ^ 24 * 255 := by
        rw [← Nat.mul_add_lt_is_or hm, ← hd, hc]
    _ = (2 ^ 24 * (x / 2 ^ 24) ||| 2 ^ 24 * 255) ||| x % 2 ^ 24 := by
        rw [Nat.lor_assoc, Nat.lor_comm (x % 2 ^ 24), ← Nat.lor_assoc]
    _ = 2 ^ 24 * 255 ||| x % 2 ^ 24 := by rw [key _ hq]
    _ = 2 ^ 24 * 255 + x % 2 ^ 24 := (Nat.mul_add_lt_is_or hm _).symm
    _ = 0xFF000000 + x % 2 ^ 24 := by norm_num

theorem vx_lor_lt (i : Nat) (h : i < 2 ^ 32) : i ||| 0xFF000000 < 4294967296 := by
  rw [lor_ff000000 i h]
  have : i % 2 ^ 24 < 2 ^ 24 := Nat.mod_lt _ (by norm_num)
  omega

theorem generate_vx_ok (i : Nat) (h : i < 2 ^ 32) :
    generate_vx i = .ok (vxBytes i) := by
  unfold generate_vx vxBytes
  split
  · rw [struct_pack_H, if_pos (by omega)]
  · rw [struct_pack_L, if_pos (vx_lor_lt i h)]

-- ---------------------------------------------------------------------------
-- C6: variable-width index encoding
-- ---------------------------------------------------------------------------

/-- Claim C6 (amended): for every index below 0xFF00, generate_vx returns
exactly the 2-byte unsigned big-endian encoding; for every index from 0xFF00
up to (but excluding) 2^32 it returns exactly the 4-byte unsigned big-endian
encoding of index ||| 0xFF000000, whose top byte is 0xFF.  (At 2^32 and above
the struct.pack call raises instead; see the counterexample.) -/
theorem c6_vx_encoding (i : Nat) :
    (i < 0xFF00 → generate_vx i = .ok (u16be i) ∧ (u16be i).length = 2)
    ∧ (0xFF00 ≤ i → i < 2 ^ 32 →
      generate_vx i = .ok (u32be (i ||| 0xFF000000))
      ∧ (u32be (i ||| 0xFF000000)).length = 4
      ∧ (u32be (i ||| 0xFF000000)).head? = some 0xFF) := by
  constructor
  · intro hi
    refine ⟨?_, rfl⟩
    rw [generate_vx, if_pos hi, struct_pack_H, if_pos (by omega)]
  · intro hlo hhi
    have hx := lor_ff000000 i hhi
    have h24 : (2 : Nat) ^ 24 = 16777216 := by norm_num
    have hm : i % 2 ^ 24 < 2 ^ 24 := Nat.mod_lt _ (by norm_num)
    refine ⟨?_, rfl, ?_⟩
    · rw [generate_vx, if_neg (by omega), struct_pack_L, if_pos (vx_lor_lt i hhi)]
    · show some ((i ||| 0xFF000000) / 2 ^ 24 % 256) = some 0xFF
      rw [hx]
      rw [h24] at hm ⊢
      congr 1
      omega

/-- Witness for C6 at the width threshold. -/
theorem c6_vx_encoding_witness :
    generate_vx 0xFEFF = .ok (u16be 0xFEFF)
    ∧ generate_vx 0xFF00 = .ok (u32be (0xFF00 ||| 0xFF000000))
    ∧ (u32be (0xFF00 ||| 0xFF000000)).length = 4
    ∧ (u32be (0xFF00 ||| 0xFF000000)).head? = some 0xFF :=
  ⟨((c6_vx_encoding 0xFEFF).1 (by norm_num)).1,
   ((c6_vx_encoding 0xFF00).2 (by norm_num) (by norm_num)).1,
   ((c6_vx_encoding 0xFF00).2 (by norm_num) (by norm_num)).2.1,
   ((c6_vx_encoding 0xFF00).2 (by norm_num) (by norm_num)).2.2⟩

/-- Counterexample to C6 as stated: 2^32 is an index above 0xFF00 on which
generate_vx does not return a 4-byte encoding; the struct.pack call raises
struct.error, because (2^32) ||| 0xFF000000 exceeds the u32 range. -/
theorem c6_vx_counterexample :
    0xFF00 ≤ 4294967296
    ∧ generate_vx 4294967296
      = .error "struct.error: L format requires 0 <= number <= 4294967295" :=
  ⟨by norm_num, rfl⟩

-- ---------------------------------------------------------------------------
-- C7: name padding
-- ---------------------------------------------------------------------------

/-- Claim C7: generate_nstring appends two NULs when the input length is even
and one when it is odd, so its result always ends in a NUL, has even length,
and is at least one longer than the input; the spec's three examples hold. -/
theorem c7_nstring_padding :
    (∀ s : String, (generate_nstring s).length % 2 = 0
      ∧ s.length + 1 ≤ (generate_nstring s).length
      ∧ ∃ t : String, generate_nstring s = t ++ "\x00")
    ∧ generate_nstring "" = "\x00\x00" ∧ (generate_nstring "").length = 2
    ∧ generate_nstring "AB" = "AB\x00\x00" ∧ (generate_nstring "AB").length = 4
    ∧ generate_nstring "ABC" = "ABC\x00" ∧ (generate_nstring "ABC").length = 4 := by
  refine ⟨fun s => ?_, rfl, rfl, rfl, rfl, rfl, rfl⟩
  unfold generate_nstring
  by_cases h : s.length % 2 = 0
  · rw [if_pos (by simpa using h)]
    refine ⟨?_, ?_, s ++ "\x00", (String.append_assoc s "\x00" "\x00").symm⟩
    · rw [String.length_append]
      have h2 : ("\x00\x00" : String).length = 2 := rfl
      omega
    · rw [String.length_append]
      have h2 : ("\x00\x00" : String).length = 2 := rfl
      omega
  · rw [if_neg (by simpa using h)]
    refine ⟨?_, ?_, s, rfl⟩
    · rw [String.length_append]
      have h1 : ("\x00" : String).length = 1 := rfl
      omega
    · rw [String.length_append]
      have h1 : ("\x00" : String).length = 1 := rfl
      omega

-- ---------------------------------------------------------------------------
-- C8: batch-mode output filename
-- ---------------------------------------------------------------------------

theorem char_toNat_ofNat (n : Nat) (h : n.isValidChar) : (Char.ofNat n).toNat = n := by
  rw [Char.ofNat, dif_pos h]
  simp [Char.ofNatAux, Char.toNat, UInt32.toNat]

theorem char_toLower_dot {c : Char} (h : c.toLower = '.') : c = '.' := by
  unfold Char.toLower at h
  simp only [] at h
  by_cases hr : c.toNat ≥ 65 ∧ c.toNat ≤ 90
  · rw [if_pos hr] at h
    exfalso
    have h2 := congrArg Char.toNat h
    rw [char_toNat_ofNat] at h2
    · have h3 : ('.' : Char).toNat = 46 := rfl
      omega
    · exact Or.inl (by omega)
  · rwa [if_neg hr] at h

theorem replace_dot_no_dot (s : String) : '.' ∉ (replace_char '.' '_' s).data := by
  intro hmem
  have hd : (replace_char '.' '_' s).data
      = s.data.map (fun c => if c = '.' then '_' else c) := rfl
  rw [hd] at hmem
  obtain ⟨c, _, hc⟩ := List.mem_map.mp hmem
  by_cases h : c = '.'
  · rw [if_pos h] at hc
    exact absurd hc (by decide)
  · rw [if_neg h] at hc
    exact h hc

theorem lower_no_dot {l : List Char} (h : '.' ∉ l) : '.' ∉ l.map Char.toLower := by
  intro hmem
  obtain ⟨c, hcl, hc⟩ := List.mem_map.mp hmem
  exact h (char_toLower_dot hc ▸ hcl)

theorem not_prefix_owl (M T : List Char) (hM : '.' ∉ M) :
    ¬ (['o', 'w', 'l', '.'] <+: M ++ '/' :: T) := by
  intro hp
  rcases M with _ | ⟨a, M⟩
  · rw [List.nil_append, List.cons_prefix_cons] at hp
    exact absurd hp.1 (by decide)
  rcases M with _ | ⟨b, M⟩
  · simp only [List.cons_append, List.nil_append, List.cons_prefix_cons] at hp
    exact absurd hp.2.1 (by decide)
  rcases M with _ | ⟨c, M⟩
  · simp only [List.cons_append, List.nil_append, List.cons_prefix_cons] at hp
    exact absurd hp.2.2.1 (by decide)
  rcases M with _ | ⟨d, M⟩
  · simp only [List.cons_append, List.nil_append, List.cons_prefix_cons] at hp
    exact absurd hp.2.2.2.1 (by decide)
  · simp only [List.cons_append, List.cons_prefix_cons] at hp
    obtain ⟨-, -, -, h4, -⟩ := hp
    apply hM
    rw [← h4]
    simp

theorem ends_with_lwo_false (dirname objname : String) :
    py_ends_with (py_lower (dirname ++ "/" ++ replace_char '.' '_' objname)) ".lwo"
      = false := by
  apply Bool.eq_false_iff.mpr
  intro htrue
  have hsuf : (".lwo".data)
      <:+ (py_lower (dirname ++ "/" ++ replace_char '.' '_' objname)).data :=
    List.isSuffixOf_iff_suffix.mp htrue
  have hdata : (py_lower (dirname ++ "/" ++ replace_char '.' '_' objname)).data
      = dirname.data.map Char.toLower
        ++ '/' :: (replace_char '.' '_' objname).data.map Char.toLower := by
    show (dirname ++ "/" ++ replace_char '.' '_' objname).data.map Char.toLower = _
    rw [String.data_append, String.data_append]
    simp only [List.map_append]
    have hsl : List.map Char.toLower ("/".data) = ['/'] := rfl
    rw [hsl]
    simp
  rw [hdata] at hsuf
  have h1 : (['o', 'w', 'l', '.'] : List Char).reverse = ['.', 'l', 'w', 'o'] := by decide
  have hpre : ['o', 'w', 'l', '.']
      <+: (dirname.data.map Char.toLower
          ++ '/' :: (replace_char '.' '_' objname).data.map Char.toLower).reverse := by
    apply List.reverse_suffix.mp
    rw [List.reverse_reverse, h1]
    exact hsuf
  have h2 : (dirname.data.map Char.toLower
        ++ '/' :: (replace_char '.' '_' objname).data.map Char.toLower).reverse
      = ((replace_char '.' '_' objname).data.map Char.toLower).reverse
        ++ '/' :: (dirname.data.map Char.toLower).reverse := by
    simp
  rw [h2] at hpre
  exact not_prefix_owl _ _
    (fun hm => lower_no_dot (replace_dot_no_dot objname) (List.mem_reverse.mp hm)) hpre

/-- Claim C8 (amended): the batch-mode filename is the directory, the
separator, and the object name with each period (and only periods; spaces are
preserved) replaced by an underscore; since the normalized name then contains
no period the .lwo extension is always appended. -/
theorem c8_batch_filename (dirname objname : String) :
    batch_filename dirname objname
      = dirname ++ "/" ++ replace_char '.' '_' objname ++ ".lwo"
    ∧ (' ' ∈ objname.data → ' ' ∈ (batch_filename dirname objname).data) := by
  have hf := ends_with_lwo_false dirname objname
  have h1 : batch_filename dirname objname
      = dirname ++ "/" ++ replace_char '.' '_' objname ++ ".lwo" := by
    simp [batch_filename, hf]
  refine ⟨h1, fun hsp => ?_⟩
  have h2 : ' ' ∈ (replace_char '.' '_' objname).data := by
    have hd : (replace_char '.' '_' objname).data
        = objname.data.map (fun c => if c = '.' then '_' else c) := rfl
    rw [hd]
    exact List.mem_map.mpr ⟨' ', hsp, by decide⟩
  rw [h1, String.data_append, String.data_append]
  exact List.mem_append.mpr (Or.inl (List.mem_append.mpr (Or.inr h2)))

/-- Counterexample to C8 as stated: the object name "a b" contains a space,
and the produced batch filename "d/a b.lwo" keeps that space unchanged, so
spaces are not replaced. -/
theorem c8_batch_filename_counterexample :
    batch_filename "d" "a b" = "d/a b.lwo"
    ∧ ' ' ∈ (batch_filename "d" "a b").data := by
  constructor
  · rfl
  · decide

-- ---------------------------------------------------------------------------
-- C1: default-material fallback (code bug)
-- ---------------------------------------------------------------------------

/-- Claim C1 fails on the code: for a mesh with no materials and no
vertex-color layers the export does not fall back to the implicit default
material.  get_used_material_names reads self.LWO_DEFAULT_MATERIAL, an
attribute that is never assigned anywhere in the module, so the whole export
pass stops with AttributeError instead of succeeding.  (Even if the tag-table
entry existed, generate_surface could not emit the default Surface block: it
calls generate_default_surf() without the one positional argument that
module-level function requires.) -/
theorem c1_default_fallback_bug :
    get_used_material_names [plainMesh]
      = .error "AttributeError: LwoExport object has no attribute LWO_DEFAULT_MATERIAL"
    ∧ lwo_write_pass witFM witEnv [⟨"Cube", plainMesh⟩] false 1
      = .error "AttributeError: LwoExport object has no attribute LWO_DEFAULT_MATERIAL"
    ∧ lwo_export_file witFM witEnv [⟨"Cube", plainMesh⟩] false 1
      = .error "AttributeError: LwoExport object has no attribute LWO_DEFAULT_MATERIAL" :=
  ⟨rfl, rfl, rfl⟩

-- ---------------------------------------------------------------------------
-- C9: bounding box
-- ---------------------------------------------------------------------------

theorem bbox_min_ok {α : Type} (verts : List α) (f : α → ℚ) :
    py_min (if verts.isEmpty then [0] else verts.map f)
      = .ok (listMin0 (verts.map f)) := by
  cases verts with
  | nil => rfl
  | cons v vs =>
    show py_min ((v :: vs).map f) = _
    show Except.ok ((vs.map f).foldl min (f v)) = _
    simp [listMin0, List.foldl_cons]

theorem bbox_max_ok {α : Type} (verts : List α) (f : α → ℚ) :
    py_max (if verts.isEmpty then [0] else verts.map f)
      = .ok (listMax0 (verts.map f)) := by
  cases verts with
  | nil => rfl
  | cons v vs =>
    show py_max ((v :: vs).map f) = _
    show Except.ok ((vs.map f).foldl max (f v)) = _
    simp [listMax0, List.foldl_cons]

/-- Claim C9: the bounding-box payload always consists of exactly six packed
f32 values, the minima then the maxima of the scaled vertex coordinates in
axis-swapped order (minX, minZ, minY, maxX, maxZ, maxY); a mesh with zero
vertices yields min = max = 0 on all axes, and the erroring empty-sequence
branch of min/max is never reached (the result is always ok). -/
theorem c9_bbox (fm : FloatModel) (scale : ℚ) (mesh : Mesh)
    (hlen : ∀ q : ℚ, (fm.packF32 q).length = 4) :
    generate_bbox fm scale mesh
      = .ok (fm.packF32 (listMin0 (mesh.vertices.map fun v => v.1 * scale))
          ++ fm.packF32 (listMin0 (mesh.vertices.map fun v => v.2.2 * scale))
          ++ fm.packF32 (listMin0 (mesh.vertices.map fun v => v.2.1 * scale))
          ++ fm.packF32 (listMax0 (mesh.vertices.map fun v => v.1 * scale))
          ++ fm.packF32 (listMax0 (mesh.vertices.map fun v => v.2.2 * scale))
          ++ fm.packF32 (listMax0 (mesh.vertices.map fun v => v.2.1 * scale)))
    ∧ (∀ bs, generate_bbox fm scale mesh = .ok bs → bs.length = 24)
    ∧ (mesh.vertices = [] →
        generate_bbox fm scale mesh
          = .ok (fm.packF32 0 ++ fm.packF32 0 ++ fm.packF32 0
              ++ fm.packF32 0 ++ fm.packF32 0 ++ fm.packF32 0)) := by
  have hmain : generate_bbox fm scale mesh
      = .ok (fm.packF32 (listMin0 (mesh.vertices.map fun v => v.1 * scale))
          ++ fm.packF32 (listMin0 (mesh.vertices.map fun v => v.2.2 * scale))
          ++ fm.packF32 (listMin0 (mesh.vertices.map fun v => v.2.1 * scale))
          ++ fm.packF32 (listMax0 (mesh.vertices.map fun v => v.1 * scale))
          ++ fm.packF32 (listMax0 (mesh.vertices.map fun v => v.2.2 * scale))
          ++ fm.packF32 (listMax0 (mesh.vertices.map fun v => v.2.1 * scale))) := by
    unfold generate_bbox
    simp only [bbox_min_ok, bbox_max_ok, ok_bind]
  refine ⟨hmain, ?_, ?_⟩
  · intro bs hbs
    rw [hmain] at hbs
    cases hbs
    simp [List.length_append, hlen]
  · intro hempty
    rw [hmain, hempty]
    rfl

/-- Witness for C9 on a concrete triangle mesh and on a zero-vertex mesh. -/
theorem c9_bbox_witness :
    (∃ bs, generate_bbox witFM 1 triMesh = .ok bs ∧ bs.length = 24)
    ∧ generate_bbox witFM 1 emptyMesh
      = .ok (witFM.packF32 0 ++ witFM.packF32 0 ++ witFM.packF32 0
          ++ witFM.packF32 0 ++ witFM.packF32 0 ++ witFM.packF32 0) :=
  ⟨⟨_, (c9_bbox witFM 1 triMesh (fun _ => rfl)).1,
    (c9_bbox witFM 1 triMesh (fun _ => rfl)).2.1 _
      (c9_bbox witFM 1 triMesh (fun _ => rfl)).1⟩,
   (c9_bbox witFM 1 emptyMesh (fun _ => rfl)).2.2 rfl⟩

-- ---------------------------------------------------------------------------
-- C4: POLS chunk layout
-- ---------------------------------------------------------------------------

theorem pyGet_ok {α : Type} {l : List α} {i : Nat} (h : i < l.length) (d : α) :
    pyGet l i = .ok (l.getD i d) := by
  unfold pyGet
  rw [List.getElem?_eq_getElem h, List.getD_eq_getElem l d h]

theorem down_range_mapME {β : Type} (vi : List Nat) (f : Nat → Except String β) :
    ∀ n, n ≤ vi.length →
      mapME (fun j => pyGet vi j >>= f) (down_range n) = mapME f ((vi.take n).reverse) := by
  intro n
  induction n with
  | zero => intro _; rfl
  | succ n ih =>
    intro h
    have hn : n < vi.length := by omega
    have htake : (vi.take (n + 1)).reverse = vi.getD n 0 :: (vi.take n).reverse := by
      rw [List.take_succ, List.getElem?_eq_getElem hn, List.getD_eq_getElem vi 0 hn]
      rw [Option.toList_some, List.reverse_append]
      rfl
    rw [htake]
    show mapME _ (n :: down_range n) = _
    simp only [mapME]
    rw [pyGet_ok hn 0, ih (by omega)]
    rfl

theorem pols_poly_ok (p : Polygon)
    (hlen : p.vertices.length < 65536)
    (hv : ∀ v ∈ p.vertices, v < 2 ^ 32) :
    pols_poly p = .ok (u16be p.vertices.length
      ++ (p.vertices.reverse.map vxBytes).flatten) := by
  have h1 : mapME (fun j => pyGet p.vertices j >>= generate_vx) (down_range p.vertices.length)
      = mapME generate_vx p.vertices.reverse := by
    have h := down_range_mapME p.vertices generate_vx p.vertices.length (le_refl _)
    simpa [List.take_length] using h
  have h2 : mapME generate_vx p.vertices.reverse = .ok (p.vertices.reverse.map vxBytes) :=
    mapME_ok (fun a ha => generate_vx_ok a (hv a (List.mem_reverse.mp ha)))
  unfold pols_poly
  rw [struct_pack_H, if_pos hlen, ok_bind, h1, h2, ok_bind]

theorem pols_loose_ok (polys : List Polygon) (es : List (Nat × Nat))
    (he : ∀ e ∈ es, e.1 < 2 ^ 32 ∧ e.2 < 2 ^ 32) :
    pols_loose_edges polys es
      = .ok (((es.filter (fun e => link_faces_count polys e == 0)).map
          (fun e => u16be 2 ++ vxBytes e.1 ++ vxBytes e.2)).flatten) := by
  induction es with
  | nil => rfl
  | cons e es ih =>
    have h1 := he e (by simp)
    have hrest := ih (fun x hx => he x (by simp [hx]))
    by_cases hc : link_faces_count polys e = 0
    · unfold pols_loose_edges
      rw [if_pos (by simp [hc]), generate_vx_ok e.1 h1.1, generate_vx_ok e.2 h1.2]
      simp only [ok_bind]
      rw [hrest]
      simp only [ok_bind]
      rw [List.filter_cons_of_pos (by simp [hc]), List.map_cons, List.flatten_cons]
    · unfold pols_loose_edges
      rw [if_neg (by simp [hc])]
      simp only [ok_bind]
      rw [hrest]
      simp only [ok_bind]
      rw [List.filter_cons_of_neg (by simp [hc]), List.nil_append]

/-- Claim C4: the POLS payload begins with the tag FACE (SUBD in subpatch
mode); then, for each polygon in mesh order, a u16 vertex count followed by
the polygon's vertex indices in reverse of authored order, each variable-width
encoded; then, for every mesh edge linked to zero faces, a synthetic 2-vertex
entry (u16 value 2 plus the edge's two encoded vertex indices). -/
theorem c4_pols_layout (mesh : Mesh) (subd : Bool)
    (hp : ∀ p ∈ mesh.polygons, p.vertices.length < 65536 ∧ ∀ v ∈ p.vertices, v < 2 ^ 32)
    (he : ∀ e ∈ mesh.edges, e.1 < 2 ^ 32 ∧ e.2 < 2 ^ 32) :
    generate_pols mesh subd
      = .ok ((if subd then asciiBytes "SUBD" else asciiBytes "FACE")
          ++ (mesh.polygons.map (fun p =>
              u16be p.vertices.length ++ (p.vertices.reverse.map vxBytes).flatten)).flatten
          ++ ((mesh.edges.filter (fun e => link_faces_count mesh.polygons e == 0)).map
              (fun e => u16be 2 ++ vxBytes e.1 ++ vxBytes e.2)).flatten) := by
  have hpolys : mapME pols_poly mesh.polygons
      = .ok (mesh.polygons.map (fun p =>
          u16be p.vertices.length ++ (p.vertices.reverse.map vxBytes).flatten)) :=
    mapME_ok (fun p hq => pols_poly_ok p (hp p hq).1 (hp p hq).2)
  unfold generate_pols
  rw [hpolys, ok_bind, pols_loose_ok mesh.polygons mesh.edges he, ok_bind]

/-- Witness for C4: the single triangle with authored order [0, 1, 2] stores
indices [2, 1, 0], and all three of its (face-linked) edges produce no
synthetic entries; the raw bytes confirm tag, count and reversed order. -/
theorem c4_pols_layout_witness :
    generate_pols triMesh false
      = .ok (asciiBytes "FACE"
          ++ (triMesh.polygons.map (fun p =>
              u16be p.vertices.length ++ (p.vertices.reverse.map vxBytes).flatten)).flatten
          ++ ((triMesh.edges.filter (fun e => link_faces_count triMesh.polygons e == 0)).map
              (fun e => u16be 2 ++ vxBytes e.1 ++ vxBytes e.2)).flatten)
    ∧ generate_pols triMesh false
      = .ok [70, 65, 67, 69, 0, 3, 0, 2, 0, 1, 0, 0] := by
  constructor
  · have h := c4_pols_layout triMesh false (by decide) (by decide)
    simpa using h
  · rfl

-- ---------------------------------------------------------------------------
-- C3: PTAG surface indices
-- ---------------------------------------------------------------------------

theorem pyIndex_ok {α : Type} [DecidableEq α] :
    ∀ {l : List α} {x : α}, x ∈ l → pyIndex l x = .ok (l.indexOf x) := by
  intro l
  induction l with
  | nil => intro x h; cases h
  | cons a l ih =>
    intro x h
    by_cases hax : a = x
    · subst hax
      simp [pyIndex, List.indexOf_cons_self]
    · have hx : x ∈ l := by
        rcases List.mem_cons.mp h with h1 | h1
        · exact absurd h1.symm hax
        · exact h1
      rw [pyIndex, if_neg hax, ih hx, List.indexOf_cons_ne l hax]
      rfl

theorem ptag_entries_ok (materials : List (Option String)) (names : List String)
    (hnames : names.length ≤ 65536) :
    ∀ (polys : List Polygon) (start : Nat),
      start + polys.length ≤ 2 ^ 32 →
      (materials.isEmpty = false → ∀ p ∈ polys,
        ∃ s, materials[p.material_index]? = some (some s) ∧ s ∈ names) →
      ptag_entries materials names start polys
        = .ok (((List.enumFrom start polys).map (fun ip =>
            vxBytes ip.1 ++ u16be (if materials.isEmpty then 0
              else names.indexOf ((materials[ip.2.material_index]?.getD none).getD "")))).flatten) := by
  intro polys
  induction polys with
  | nil => intro start _ _; rfl
  | cons p ps ih =>
    intro start hs hres
    have hvx : generate_vx start = Except.ok (vxBytes start) :=
      generate_vx_ok start (by simp at hs; omega)
    have hrest : ptag_entries materials names (start + 1) ps
        = .ok (((List.enumFrom (start + 1) ps).map (fun ip =>
            vxBytes ip.1 ++ u16be (if materials.isEmpty then 0
              else names.indexOf ((materials[ip.2.material_index]?.getD none).getD "")))).flatten) := by
      refine ih (start + 1) (by simp at hs ⊢; omega) ?_
      intro hne q hq
      exact hres hne q (by simp [hq])
    by_cases hmat : materials.isEmpty
    · unfold ptag_entries
      rw [if_pos hmat, hvx]
      simp only [ok_bind]
      rw [hrest]
      simp only [ok_bind]
      rw [List.enumFrom_cons, List.map_cons, List.flatten_cons]
      simp [hmat]
    · have hne : materials.isEmpty = false := by simpa using hmat
      obtain ⟨s, hget, hmem⟩ := hres hne p (by simp)
      have hg : pyGet materials p.material_index = Except.ok (some s) := by
        unfold pyGet
        rw [hget]
      have hidx : names.indexOf s < 65536 :=
        Nat.lt_of_lt_of_le (List.indexOf_lt_length.mpr hmem) hnames
      unfold ptag_entries
      rw [if_neg hmat, hg]
      simp only [ok_bind]
      rw [pyIndex_ok hmem]
      simp only [ok_bind]
      rw [struct_pack_H, if_pos hidx, hvx]
      simp only [ok_bind]
      rw [hrest]
      simp only [ok_bind]
      rw [List.enumFrom_cons, List.map_cons, List.flatten_cons]
      simp [hne, hget]

/-- Claim C3: the PTAG payload is the tag SURF followed, for each polygon in
the same mesh.polygons order the Polygons block uses, by the variable-width
polygon index paired with a u16 surface index; that index is the position
(list.index, the first occurrence) of the polygon's resolved material name in
the material-name table passed in (the single tag table built once per export
pass in lwo_write_pass), and is 0 when the mesh has no materials. -/
theorem c3_ptag_surface_index (mesh : Mesh) (names : List String)
    (hnames : names.length ≤ 65536)
    (hcount : mesh.polygons.length ≤ 2 ^ 32)
    (hres : mesh.materials.isEmpty = false → ∀ p ∈ mesh.polygons,
      ∃ s, mesh.materials[p.material_index]? = some (some s) ∧ s ∈ names) :
    generate_ptag mesh names
      = .ok (asciiBytes "SURF"
          ++ ((List.enumFrom 0 mesh.polygons).map (fun ip =>
              vxBytes ip.1 ++ u16be (if mesh.materials.isEmpty then 0
                else names.indexOf
                  ((mesh.materials[ip.2.material_index]?.getD none).getD "")))).flatten) := by
  unfold generate_ptag
  rw [ptag_entries_ok mesh.materials names hnames mesh.polygons 0 (by omega) hres]
  simp only [ok_bind]

/-- Witness for C3: the one-material triangle resolves its polygon to surface
index 0 through the tag table ["Mat"]; the raw bytes confirm the pairing of
the encoded polygon index with the u16 surface index. -/
theorem c3_ptag_surface_index_witness :
    generate_ptag triMesh ["Mat"]
      = .ok (asciiBytes "SURF"
          ++ ((List.enumFrom 0 triMesh.polygons).map (fun ip =>
              vxBytes ip.1 ++ u16be (if triMesh.materials.isEmpty then 0
                else ["Mat"].indexOf
                  ((triMesh.materials[ip.2.material_index]?.getD none).getD "")))).flatten)
    ∧ generate_ptag triMesh ["Mat"] = .ok [83, 85, 82, 70, 0, 0, 0, 0] :=
  ⟨c3_ptag_surface_index triMesh ["Mat"] (by decide) (by decide)
    (by
      intro _ p hp
      simp only [triMesh, plainMesh, List.mem_singleton] at hp
      subst hp
      exact ⟨"Mat", rfl, by simp⟩),
   rfl⟩

-- ---------------------------------------------------------------------------
-- C5: VMAD UV seam suppression
-- ---------------------------------------------------------------------------

theorem pyIndex_range'_append (t : List Nat) :
    ∀ (m s k : Nat), k < m → pyIndex (List.range' s m ++ t) (s + k) = .ok k := by
  intro m
  induction m with
  | zero => intro s k h; exact absurd h (by omega)
  | succ m ih =>
    intro s k h
    rw [List.range'_succ s m 1]
    cases k with
    | zero =>
      show pyIndex (s :: (List.range' (s + 1) m ++ t)) (s + 0) = .ok 0
      rw [pyIndex, if_pos (by omega)]
    | succ k =>
      have hne : s ≠ s + (k + 1) := by omega
      rw [List.cons_append, pyIndex, if_neg hne]
      have harg : s + (k + 1) = (s + 1) + k := by omega
      rw [harg, ih (s + 1) k (by omega)]
      rfl

theorem range'_append_getD (s n j : Nat) (h : j < 2 * n) :
    (List.range' s n ++ List.range' s n).getD j 0 = s + j % n := by
  have hn : 0 < n := by omega
  have hlen : (List.range' s n ++ List.range' s n).length = 2 * n := by
    simp [List.length_range']
    omega
  rw [List.getD_eq_getElem _ _ (by omega : j < (List.range' s n ++ List.range' s n).length)]
  by_cases hj : j < n
  · rw [List.getElem_append_left (by simp [List.length_range']; omega)]
    rw [List.getElem_range']
    rw [Nat.mod_eq_of_lt hj]
    omega
  · rw [List.getElem_append_right (by simp [List.length_range']; omega)]
    rw [List.getElem_range']
    simp only [List.length_range', one_mul]
    have h1 : j % n = j - n := by
      rw [Nat.mod_eq_sub_mod (by omega), Nat.mod_eq_of_lt (by omega)]
    omega

theorem searchl_prev (s n k : Nat) (hk : k < n) :
    pyGetInt (List.range' s n ++ List.range' s n) ((k : Int) - 1)
      = .ok (s + (k + n - 1) % n) := by
  have hn : 0 < n := by omega
  have hlen : (List.range' s n ++ List.range' s n).length = 2 * n := by
    simp [List.length_range']
    omega
  cases k with
  | zero =>
    unfold pyGetInt
    rw [if_neg (by norm_num), if_pos (by rw [hlen]; push_cast; omega)]
    have harg : (((0 : Nat) : Int) - 1
        + (List.range' s n ++ List.range' s n).length).toNat = 2 * n - 1 := by
      rw [hlen]
      push_cast
      omega
    rw [harg]
    unfold pyGet
    rw [List.getElem?_eq_getElem (by omega)]
    have hval := range'_append_getD s n (2 * n - 1) (by omega)
    rw [List.getD_eq_getElem _ _ (by omega)] at hval
    rw [hval]
    have : (2 * n - 1) % n = (0 + n - 1) % n := by
      rw [Nat.zero_add]
      have h1 : 2 * n - 1 = (n - 1) + n := by omega
      rw [h1, Nat.add_mod_right, Nat.mod_eq_of_lt (by omega)]
    rw [this]
  | succ k =>
    unfold pyGetInt
    rw [if_pos (by push_cast; omega)]
    have harg : (((k + 1 : Nat) : Int) - 1).toNat = k := by push_cast; omega
    rw [harg]
    unfold pyGet
    rw [List.getElem?_eq_getElem (by omega)]
    have hval := range'_append_getD s n k (by omega)
    rw [List.getD_eq_getElem _ _ (by omega)] at hval
    rw [hval]
    have : k % n = (k + 1 + n - 1) % n := by
      have h1 : k + 1 + n - 1 = k + n := by omega
      rw [h1, Nat.add_mod_right]
    rw [this]

theorem searchl_next (s n k : Nat) (hk : k < n) :
    pyGetInt (List.range' s n ++ List.range' s n) ((k : Int) + 1)
      = .ok (s + (k + 1) % n) := by
  have hn : 0 < n := by omega
  have hlen : (List.range' s n ++ List.range' s n).length = 2 * n := by
    simp [List.length_range']
    omega
  unfold pyGetInt
  rw [if_pos (by positivity)]
  have harg : (((k : Nat) : Int) + 1).toNat = k + 1 := by omega
  rw [harg]
  unfold pyGet
  rw [List.getElem?_eq_getElem (by omega)]
  have hval := range'_append_getD s n (k + 1) (by omega)
  rw [List.getD_eq_getElem _ _ (by omega)] at hval
  rw [hval]

theorem vmad_corner_ok (fm : FloatModel) (layer : UVLayer) (p : Polygon) (i v k : Nat)
    (hk : k < p.vertices.length) (hi : i < 2 ^ 32) (hv : v < 2 ^ 32)
    (hlay : p.loop_start + p.vertices.length ≤ layer.data.length) :
    vmad_corner fm layer (loopIndices p) i v (p.loop_start + k)
      = .ok (if corner_smooth layer p k then none
          else some (vxBytes v ++ vxBytes i
            ++ fm.packF32 (uv_at layer (p.loop_start + k)).1
            ++ fm.packF32 (uv_at layer (p.loop_start + k)).2)) := by
  have hn : 0 < p.vertices.length := by omega
  have hprevlt : (k + p.vertices.length - 1) % p.vertices.length < p.vertices.length :=
    Nat.mod_lt _ hn
  have hnextlt : (k + 1) % p.vertices.length < p.vertices.length := Nat.mod_lt _ hn
  have hemit : (do
      let bv ← generate_vx v
      let bf ← generate_vx i
      (Except.ok (some (bv ++ bf
        ++ fm.packF32 (layer.data.getD (p.loop_start + k) (0, 0)).1
        ++ fm.packF32 (layer.data.getD (p.loop_start + k) (0, 0)).2))
        : Except String (Option (List Nat))))
      = .ok (some (vxBytes v ++ vxBytes i
        ++ fm.packF32 (uv_at layer (p.loop_start + k)).1
        ++ fm.packF32 (uv_at layer (p.loop_start + k)).2)) := by
    rw [generate_vx_ok v hv]
    simp only [ok_bind]
    rw [generate_vx_ok i hi]
    simp only [ok_bind]
    rfl
  unfold vmad_corner loopIndices
  simp only []
  rw [pyIndex_range'_append (List.range' p.loop_start p.vertices.length)
    p.vertices.length p.loop_start k hk]
  simp only [ok_bind]
  rw [searchl_prev p.loop_start p.vertices.length k hk]
  simp only [ok_bind]
  rw [searchl_next p.loop_start p.vertices.length k hk]
  simp only [ok_bind]
  rw [pyGet_ok (show p.loop_start + k < layer.data.length by omega) ((0 : ℚ), (0 : ℚ))]
  simp only [ok_bind]
  rw [pyGet_ok (show p.loop_start + (k + p.vertices.length - 1) % p.vertices.length
      < layer.data.length by omega) ((0 : ℚ), (0 : ℚ))]
  simp only [ok_bind]
  by_cases h1 : layer.data.getD
      (p.loop_start + (k + p.vertices.length - 1) % p.vertices.length) (0, 0)
    = layer.data.getD (p.loop_start + k) (0, 0)
  · rw [if_pos h1]
    rw [pyGet_ok (show p.loop_start + (k + 1) % p.vertices.length
        < layer.data.length by omega) ((0 : ℚ), (0 : ℚ))]
    simp only [ok_bind]
    by_cases h2 : layer.data.getD (p.loop_start + k) (0, 0)
        = layer.data.getD (p.loop_start + (k + 1) % p.vertices.length) (0, 0)
    · rw [if_pos h2,
        if_pos (show corner_smooth layer p k = true by
          unfold corner_smooth uv_at
          simp only [Bool.and_eq_true, beq_iff_eq]
          exact ⟨h1, h2⟩)]
    · rw [if_neg h2,
        if_neg (show ¬ corner_smooth layer p k = true by
          unfold corner_smooth uv_at
          simp only [Bool.and_eq_true, beq_iff_eq]
          intro hcc
          exact h2 hcc.2), hemit]
  · rw [if_neg h1,
      if_neg (show ¬ corner_smooth layer p k = true by
        unfold corner_smooth uv_at
        simp only [Bool.and_eq_true, beq_iff_eq]
        intro hcc
        exact h1 hcc.1), hemit]

theorem map_zip_range' {γ : Type} (F : Nat × Nat → γ) :
    ∀ (vs : List Nat) (s : Nat),
      (vs.zip (List.range' s vs.length)).map F
        = (List.range vs.length).map (fun k => F (vs.getD k 0, s + k)) := by
  intro vs
  induction vs with
  | nil => intro s; rfl
  | cons v vs ih =>
    intro s
    show ((v :: vs).zip (List.range' s (vs.length + 1))).map F = _
    rw [List.range'_succ s vs.length 1, List.zip_cons_cons, List.map_cons]
    rw [ih (s + 1)]
    simp only [List.length_cons]
    rw [List.range_succ_eq_map, List.map_cons, List.map_map]
    congr 1
    apply List.map_congr_left
    intro k hk
    show F (vs.getD k 0, s + 1 + k) = F ((v :: vs).getD (k + 1) 0, s + (k + 1))
    have hs : s + 1 + k = s + (k + 1) := by omega
    rw [List.getD_cons_succ, hs]

theorem filterMap_id_map_ite {γ : Type} (c : Nat → Bool) (e : Nat → γ) :
    ∀ l : List Nat,
      (l.map (fun k => if c k then none else some (e k))).filterMap id
        = (l.filter (fun k => !c k)).map e := by
  intro l
  induction l with
  | nil => rfl
  | cons a l ih =>
    by_cases h : c a
    · simp [h, ih]
    · simp [h, ih]

theorem vmad_poly_opts (fm : FloatModel) (layer : UVLayer) (i : Nat) (p : Polygon)
    (hi : i < 2 ^ 32) (hv : ∀ v ∈ p.vertices, v < 2 ^ 32)
    (hlay : p.loop_start + p.vertices.length ≤ layer.data.length) :
    mapME (fun vl => vmad_corner fm layer (loopIndices p) i vl.1 vl.2)
        (p.vertices.zip (loopIndices p))
      = .ok ((List.range p.vertices.length).map (fun k =>
          if corner_smooth layer p k then none
          else some (vxBytes (p.vertices.getD k 0) ++ vxBytes i
            ++ fm.packF32 (uv_at layer (p.loop_start + k)).1
            ++ fm.packF32 (uv_at layer (p.loop_start + k)).2))) := by
  have hstep : mapME (fun vl => vmad_corner fm layer (loopIndices p) i vl.1 vl.2)
      (p.vertices.zip (loopIndices p))
      = .ok ((p.vertices.zip (loopIndices p)).map (fun vl =>
          if corner_smooth layer p (vl.2 - p.loop_start) then none
          else some (vxBytes vl.1 ++ vxBytes i
            ++ fm.packF32 (uv_at layer vl.2).1
            ++ fm.packF32 (uv_at layer vl.2).2))) := by
    apply mapME_ok
    intro vl hvl
    obtain ⟨j, hj, heq⟩ := List.mem_iff_getElem.mp hvl
    have hjlen : j < p.vertices.length := by
      have := hj
      simp [List.length_zip, loopIndices, List.length_range'] at this
      omega
    have hjr : j < (List.range' p.loop_start p.vertices.length).length := by
      simp [List.length_range']
      omega
    have hzip : (p.vertices.zip (loopIndices p))[j]
        = (p.vertices[j], p.loop_start + j) := by
      rw [List.getElem_zip]
      congr 1
      show (List.range' p.loop_start p.vertices.length)[j] = p.loop_start + j
      rw [List.getElem_range']
      omega
    rw [← heq, hzip]
    have hcorner := vmad_corner_ok fm layer p i (p.vertices[j]) j hjlen hi
      (hv _ (List.getElem_mem hjlen)) hlay
    rw [hcorner]
    congr 1
    have hsub : p.loop_start + j - p.loop_start = j := by omega
    have hgd : p.vertices.getD j 0 = p.vertices[j] :=
      List.getD_eq_getElem p.vertices 0 hjlen
    simp only [hsub, hgd]
  rw [hstep]
  congr 1
  have hzipmap := map_zip_range' (fun vl =>
      if corner_smooth layer p (vl.2 - p.loop_start) then none
      else some (vxBytes vl.1 ++ vxBytes i
        ++ fm.packF32 (uv_at layer vl.2).1
        ++ fm.packF32 (uv_at layer vl.2).2)) p.vertices p.loop_start
  rw [(show loopIndices p = List.range' p.loop_start p.vertices.length from rfl), hzipmap]
  apply List.map_congr_left
  intro k hk
  have hsub : p.loop_start + k - p.loop_start = k := by omega
  simp only [hsub]

theorem vmad_uv_polys_ok (fm : FloatModel) (layer : UVLayer) :
    ∀ (polys : List Polygon) (start : Nat),
      start + polys.length ≤ 2 ^ 32 →
      (∀ p ∈ polys, ∀ v ∈ p.vertices, v < 2 ^ 32) →
      (∀ p ∈ polys, p.loop_start + p.vertices.length ≤ layer.data.length) →
      vmad_uv_polys fm layer start polys
        = .ok (((List.enumFrom start polys).map (fun ip =>
            ((List.range ip.2.vertices.length).filter
                (fun k => !corner_smooth layer ip.2 k)).map
              (fun k => vxBytes (ip.2.vertices.getD k 0) ++ vxBytes ip.1
                ++ fm.packF32 (uv_at layer (ip.2.loop_start + k)).1
                ++ fm.packF32 (uv_at layer (ip.2.loop_start + k)).2))).flatten) := by
  intro polys
  induction polys with
  | nil => intro start _ _ _; rfl
  | cons p ps ih =>
    intro start hs hv hlay
    unfold vmad_uv_polys
    rw [vmad_poly_opts fm layer start p (by simp at hs; omega) (hv p (by simp))
      (hlay p (by simp))]
    simp only [ok_bind]
    rw [filterMap_id_map_ite (corner_smooth layer p)
      (fun k => vxBytes (p.vertices.getD k 0) ++ vxBytes start
        ++ fm.packF32 (uv_at layer (p.loop_start + k)).1
        ++ fm.packF32 (uv_at layer (p.loop_start + k)).2)
      (List.range p.vertices.length)]
    rw [ih (start + 1) (by simp at hs ⊢; omega)
      (fun q hq => hv q (by simp [hq])) (fun q hq => hlay q (by simp [hq]))]
    simp only [ok_bind]
    rw [List.enumFrom_cons, List.map_cons, List.flatten_cons]

theorem vmad_uv_layers_ok (fm : FloatModel) (polys : List Polygon)
    (hp : polys.length ≤ 2 ^ 32)
    (hv : ∀ p ∈ polys, ∀ v ∈ p.vertices, v < 2 ^ 32) :
    ∀ layers : List UVLayer,
      (∀ l ∈ layers, ∀ p ∈ polys, p.loop_start + p.vertices.length ≤ l.data.length) →
      vmad_uv_layers fm polys layers
        = .ok (layers.filterMap (fun l =>
            if (vmad_uv_spec_layer fm polys l).isEmpty then none
            else some (asciiBytes "TXUV" ++ u16be 2 ++ nstringBytes l.name
              ++ (vmad_uv_spec_layer fm polys l).flatten))) := by
  intro layers
  induction layers with
  | nil => intro _; rfl
  | cons l ls ih =>
    intro hlay
    have hentry : vmad_uv_polys fm l 0 polys = .ok (vmad_uv_spec_layer fm polys l) :=
      vmad_uv_polys_ok fm l polys 0 (by omega) hv (hlay l (by simp))
    unfold vmad_uv_layers
    rw [hentry]
    simp only [ok_bind]
    rw [ih (fun l2 h2 p hp2 => hlay l2 (by simp [h2]) p hp2)]
    simp only [ok_bind]
    rw [List.filterMap_cons]
    by_cases hE : (vmad_uv_spec_layer fm polys l).isEmpty
    · simp [hE]
    · simp [hE]

/-- Claim C5: the per-UV-layer VMAD output equals the spec-side description
vmad_uv_spec: a corner is omitted exactly when its UV equals both the previous
and the next corner's UV in the polygon's corner cycle, and a layer's block
(TXUV header, dimension 2, padded name, entries) is emitted only when at least
one corner survives.  In particular a triangle whose three corners share one
UV emits nothing (see the witness). -/
theorem c5_vmad_uv_seams (fm : FloatModel) (mesh : Mesh)
    (hp : mesh.polygons.length ≤ 2 ^ 32)
    (hv : ∀ p ∈ mesh.polygons, ∀ v ∈ p.vertices, v < 2 ^ 32)
    (hlay : ∀ l ∈ mesh.uv_layers, ∀ p ∈ mesh.polygons,
      p.loop_start + p.vertices.length ≤ l.data.length) :
    generate_vmad_uv fm mesh = .ok (vmad_uv_spec fm mesh) := by
  unfold generate_vmad_uv vmad_uv_spec
  exact vmad_uv_layers_ok fm mesh.polygons hp hv mesh.uv_layers hlay

/-- Witness for C5: the all-equal-UV triangle emits no block at all, and
perturbing one corner's UV makes the block (with at least one entry) appear. -/
theorem c5_vmad_uv_seams_witness :
    generate_vmad_uv witFM uvTriEq = .ok []
    ∧ generate_vmad_uv witFM uvTriSeam = .ok (vmad_uv_spec witFM uvTriSeam)
    ∧ vmad_uv_spec witFM uvTriSeam ≠ [] := by
  refine ⟨?_, ?_, ?_⟩
  · have h := c5_vmad_uv_seams witFM uvTriEq (by decide) (by decide) (by decide)
    rw [h]
    rfl
  · exact c5_vmad_uv_seams witFM uvTriSeam (by decide) (by decide) (by decide)
  · decide

-- ---------------------------------------------------------------------------
-- C2 and C10: file assembly
-- ---------------------------------------------------------------------------

theorem mesh_chunk_group_tags (fm : FloatModel) (env : HostEnv) (names : List String)
    (subd : Bool) (scale : ℚ) (objName : String) (idx : Nat) (mesh : Mesh)
    {g : List (String × List Nat)}
    (h : mesh_chunk_group fm env names subd scale objName idx mesh = .ok g) :
    ∀ pr ∈ g, pr.1 ∈ (["LAYR", "PNTS", "BBOX", "VMAD", "POLS", "PTAG"] : List String) := by
  unfold mesh_chunk_group at h
  obtain ⟨layr, h1, h⟩ := bind_eq_ok h
  obtain ⟨bbox, h2, h⟩ := bind_eq_ok h
  obtain ⟨pols, h3, h⟩ := bind_eq_ok h
  obtain ⟨ptag, h4, h⟩ := bind_eq_ok h
  obtain ⟨uvs, h5, h⟩ := bind_eq_ok h
  obtain ⟨vcs, h6, h⟩ := bind_eq_ok h
  simp only [Except.ok.injEq] at h
  subst h
  intro pr hpr
  simp only [List.mem_append, List.mem_cons, List.mem_map, List.not_mem_nil,
    or_false] at hpr
  rcases hpr with (((rfl | rfl | rfl) | ⟨x, hx, rfl⟩) | rfl | rfl) | ⟨x, hx, rfl⟩ <;> simp

theorem export_loop_tags (fm : FloatModel) (env : HostEnv) (pairs : List (Nat × String))
    (subd : Bool) (scale : ℚ) :
    ∀ (objs : List ExportObject) (idx : Nat)
      {g : List (String × List Nat)} {s : List (List Nat)},
      export_loop fm env pairs subd scale idx objs = .ok (g, s) →
      ∀ pr ∈ g, pr.1 ∈ (["LAYR", "PNTS", "BBOX", "VMAD", "POLS", "PTAG"] : List String) := by
  intro objs
  induction objs with
  | nil =>
    intro idx g s h pr hpr
    simp only [export_loop, Except.ok.injEq, Prod.mk.injEq] at h
    obtain ⟨hg, -⟩ := h
    subst hg
    cases hpr
  | cons o os ih =>
    intro idx g s h pr hpr
    unfold export_loop at h
    obtain ⟨s1, hs1, h⟩ := bind_eq_ok h
    obtain ⟨g1, hg1, h⟩ := bind_eq_ok h
    obtain ⟨rest, hrest, h⟩ := bind_eq_ok h
    simp only [Except.ok.injEq, Prod.mk.injEq] at h
    obtain ⟨hg, -⟩ := h
    subst hg
    rcases List.mem_append.mp hpr with hin | hin
    · exact mesh_chunk_group_tags fm env (pairs.map Prod.snd) subd scale o.name idx
        o.mesh hg1 pr hin
    · exact ih (idx + 1) hrest pr hin

theorem lwo_write_pass_tags (fm : FloatModel) (env : HostEnv) (objs : List ExportObject)
    (subd : Bool) (scale : ℚ) {ps : List (String × List Nat)}
    (h : lwo_write_pass fm env objs subd scale = .ok ps) :
    ∀ pr ∈ ps, pr.1
      ∈ (["TAGS", "LAYR", "PNTS", "BBOX", "VMAD", "POLS", "PTAG", "SURF"] : List String) := by
  unfold lwo_write_pass at h
  obtain ⟨pairs, h1, h⟩ := bind_eq_ok h
  obtain ⟨body, h2, h⟩ := bind_eq_ok h
  obtain ⟨tagsBytes, h3, h⟩ := bind_eq_ok h
  simp only [Except.ok.injEq] at h
  subst h
  intro pr hpr
  rcases List.mem_cons.mp hpr with hc | hc
  · rw [hc]; simp
  · rcases List.mem_append.mp hc with hc2 | hc2
    · rcases List.mem_append.mp hc2 with hc3 | hc3
      · have := export_loop_tags fm env pairs subd scale objs 0 h2 pr hc3
        simp only [List.mem_cons, List.not_mem_nil, or_false] at this
        rcases this with h | h | h | h | h | h <;> simp [h]
      · simp at hc3
    · obtain ⟨x, hx, heq⟩ := List.mem_map.mp hc2
      rw [← heq]
      simp

theorem chunks_length (ps : List (String × List Nat))
    (htag : ∀ pr ∈ ps, (asciiBytes pr.1).length = 4) :
    ((ps.map (fun p => write_chunk p.1 p.2)).flatten).length
      = ((ps.map Prod.snd).map List.length).sum + 8 * ps.length := by
  induction ps with
  | nil => rfl
  | cons pr ps ih =>
    simp only [List.map_cons, List.flatten_cons, List.length_append, List.sum_cons,
      List.length_cons]
    rw [ih (fun q hq => htag q (by simp [hq]))]
    have h4 := htag pr (by simp)
    unfold write_chunk
    simp only [List.length_append, h4]
    have hu : (u32be pr.2.length).length = 4 := rfl
    rw [hu]
    omega

theorem lwo_file_length (ps : List (String × List Nat))
    (htag : ∀ pr ∈ ps, (asciiBytes pr.1).length = 4) :
    (lwo_file_bytes ps).length = form_size (ps.map Prod.snd) + 8 := by
  unfold lwo_file_bytes write_header
  simp only [List.length_append]
  rw [chunks_length ps htag]
  have h1 : (asciiBytes "FORM").length = 4 := rfl
  have h2 : (asciiBytes "LWO2").length = 4 := rfl
  have h3 : (u32be (form_size (ps.map Prod.snd))).length = 4 := rfl
  rw [h1, h2, h3]
  unfold form_size
  have h5 : ("FORM".length) = 4 := rfl
  rw [h5]
  simp only [List.length_map]
  omega

/-- The header size law for every export pass that completes (i.e. reaches the
end of the chunk-writing loop, which requires the TAGS payload to be bytes):
the container header is FORM, the big-endian u32 formSize, then LWO2; formSize
equals sum(len(c) for c in chunks) + 8*len(chunks) + 4; the u32 field decodes
back to formSize (using the struct.pack range bound formSize < 2^32); and the
total byte length of the written file equals formSize + 8. -/
theorem header_size_law (fm : FloatModel) (env : HostEnv) (objs : List ExportObject)
    (subd : Bool) (scale : ℚ) (ps : List (String × List Nat))
    (h : lwo_write_pass fm env objs subd scale = .ok ps)
    (hfs : form_size (ps.map Prod.snd) < 2 ^ 32) :
    form_size (ps.map Prod.snd)
        = ((ps.map Prod.snd).map List.length).sum + 8 * ps.length + 4
    ∧ write_header (ps.map Prod.snd)
        = asciiBytes "FORM" ++ u32be (form_size (ps.map Prod.snd)) ++ asciiBytes "LWO2"
    ∧ (∃ b0 b1 b2 b3, u32be (form_size (ps.map Prod.snd)) = [b0, b1, b2, b3]
        ∧ b0 * 2 ^ 24 + b1 * 2 ^ 16 + b2 * 2 ^ 8 + b3 = form_size (ps.map Prod.snd))
    ∧ lwo_export_file fm env objs subd scale = .ok (lwo_file_bytes ps)
    ∧ (lwo_file_bytes ps).length = form_size (ps.map Prod.snd) + 8 := by
  refine ⟨?_, rfl, ?_, ?_, ?_⟩
  · unfold form_size
    have h5 : ("FORM".length) = 4 := rfl
    rw [h5]
    simp only [List.length_map]
    omega
  · refine ⟨_, _, _, _, rfl, ?_⟩
    have h24 : (2 : Nat) ^ 24 = 16777216 := by norm_num
    have h16 : (2 : Nat) ^ 16 = 65536 := by norm_num
    have h8 : (2 : Nat) ^ 8 = 256 := by norm_num
    have h32 : (2 : Nat) ^ 32 = 4294967296 := by norm_num
    rw [h24, h16, h8] at *
    rw [h32] at hfs
    omega
  · unfold lwo_export_file
    rw [h]
    rfl
  · apply lwo_file_length
    intro pr hpr
    have hmem := lwo_write_pass_tags fm env objs subd scale h pr hpr
    have h4 : ∀ t ∈ (["TAGS", "LAYR", "PNTS", "BBOX", "VMAD", "POLS", "PTAG",
        "SURF"] : List String), (asciiBytes t).length = 4 := by decide
    exact h4 pr.1 hmem

/-- The completed-export size law on a concrete pass (one object, an empty
mesh with one material slot, so the tag table is non-empty). -/
theorem header_size_law_complete_case :
    ∃ ps : List (String × List Nat),
      lwo_write_pass witFM witEnv [⟨"Empty", emptyMesh⟩] false 1 = .ok ps
      ∧ form_size (ps.map Prod.snd)
          = ((ps.map Prod.snd).map List.length).sum + 8 * ps.length + 4
      ∧ (lwo_file_bytes ps).length = form_size (ps.map Prod.snd) + 8 := by
  refine ⟨(lwo_write_pass witFM witEnv [⟨"Empty", emptyMesh⟩] false 1).toOption.getD [],
    rfl, ?_, ?_⟩
  · exact (header_size_law witFM witEnv [⟨"Empty", emptyMesh⟩] false 1 _ rfl
      (by decide)).1
  · exact (header_size_law witFM witEnv [⟨"Empty", emptyMesh⟩] false 1 _ rfl
      (by decide)).2.2.2.2

/-- Claim C2 fails on the code through the unencoded-str slip in generate_tags:
for an export whose only mesh has a non-empty material slot list holding only
None slots (and no polygons), the tag table is empty, generate_tags returns
the unencoded two-NUL str of line 602 (missing the bytes(..., UTF-8) wrapper
of line 599), and the TAGS write of line 551 raises TypeError after the FORM
header and the 8-byte TAGS chunk header are on disk: the abandoned output file
holds 20 bytes, not formSize + 8.  Whenever the export completes, the law does
hold (header_size_law). -/
theorem c2_header_size_bug :
    get_used_material_names [allNoneMesh] = .ok []
    ∧ generate_tags [] = .str "\x00\x00"
    ∧ lwo_write_pass witFM witEnv [⟨"Obj", allNoneMesh⟩] false 1
        = .error "TypeError: a bytes-like object is required, not str"
    ∧ (lwo_written_bytes (generate_tags []) allNoneRest).2
        = some "TypeError: a bytes-like object is required, not str"
    ∧ (lwo_written_bytes (generate_tags []) allNoneRest).1.length = 20
    ∧ form_size_py (generate_tags []
        :: allNoneRest.map (fun p => PyData.bytes p.2)) + 8 ≠ 20 :=
  ⟨rfl, rfl, rfl, rfl, rfl, by decide⟩

/-- Claim C10: no output file ever contains a CLIP chunk: self.clips is
initialized to the empty list at the start of every per-file export pass and
no statement in the module appends to it, so the CLIP-writing loop contributes
zero chunks even though the output grammar allows them. -/
theorem c10_no_clip (fm : FloatModel) (env : HostEnv) (objs : List ExportObject)
    (subd : Bool) (scale : ℚ) (ps : List (String × List Nat))
    (h : lwo_write_pass fm env objs subd scale = .ok ps) :
    "CLIP" ∉ ps.map Prod.fst := by
  intro hmem
  obtain ⟨pr, hpr, heq⟩ := List.mem_map.mp hmem
  have hmem2 := lwo_write_pass_tags fm env objs subd scale h pr hpr
  rw [heq] at hmem2
  exact absurd hmem2 (by decide)

/-- Witness for C10 on a concrete export pass. -/
theorem c10_no_clip_witness :
    ∃ ps : List (String × List Nat),
      lwo_write_pass witFM witEnv [⟨"Empty", emptyMesh⟩] false 1 = .ok ps
      ∧ "CLIP" ∉ ps.map Prod.fst :=
  ⟨_, rfl, c10_no_clip witFM witEnv [⟨"Empty", emptyMesh⟩] false 1 _ rfl⟩
